import Mathlib

/-!
Shallow embedding of `cmd/flux/reconcile_source_bucket.go` (flux2).

The file models:
  - the Bucket resource snapshot (generation, observedGeneration, conditions,
    the string-to-string map of trigger keys, lastHandledReconcileAt, suspend,
    optional artifact);
  - `requestBucketReconciliation` via `retry.RetryOnConflict` with
    `retry.DefaultBackoff` (Steps = 4), against an explicit store with
    injected update errors;
  - the handled-wait poll `wait.PollImmediate` driven by
    `bucketReconciliationHandled`, as a scripted sequence of fetch results;
  - the dead helper `isBucketReady` (defined in the source, never called);
  - the orchestrator `reconcileSourceBucketCmdRun`.

Timing (backoff delays, poll interval, wall clock deadline) is not modelled;
the number of poll checks is carried by the length of the fetch script and
the retry bound by the Steps count.
-/

/-- Status of a Kubernetes condition (`metav1.ConditionStatus`). -/
inductive ConditionStatus where
  | statusTrue
  | statusFalse
  | statusUnknown
deriving DecidableEq, Repr

/-- One entry of `status.conditions` (`metav1.Condition`). -/
structure Condition where
  condType : String
  status : ConditionStatus
  message : String
deriving DecidableEq, Repr

/-- Embeds `sourcev1.Artifact`: the controller output metadata; `Revision` field. -/
structure Artifact where
  revision : String
deriving DecidableEq, Repr

/-- Embeds `sourcev1.BucketStatus`. `artifact` is a nil-able pointer in Go, hence `Option`. -/
structure BucketStatus where
  observedGeneration : Int
  conditions : List Condition
  lastHandledReconcileAt : String
  artifact : Option Artifact
deriving DecidableEq, Repr

/-- Embeds `sourcev1.Bucket`: metadata generation, the nil-able metadata map of
trigger keys (`none` models a nil Go map), `spec.suspend`, and status. -/
structure Bucket where
  generation : Int
  annotations : Option (List (String × String))
  suspend : Bool
  status : BucketStatus
deriving DecidableEq, Repr

/-- Errors returned by the store client: `NotFound` from Get, `Conflict` from
Update under optimistic concurrency, and any other error. -/
inductive StoreError where
  | notFound
  | conflict
  | otherErr (msg : String)
deriving DecidableEq, Repr

/-- Embeds `apierrors.IsConflict`: the predicate `retry.RetryOnConflict` retries on. -/
def isConflict : StoreError → Bool
  | .conflict => true
  | _ => false

/-- Constant `meta.ReadyCondition`. -/
def readyCondition : String := "Ready"

/-- Constant `meta.ReconcileRequestAnnotation`: the trigger marker key. -/
def reconcileRequestKey : String := "reconcile.fluxcd.io/requestedAt"

/-- Embeds `apimeta.FindStatusCondition`: first condition with the given type. -/
def FindStatusCondition (conds : List Condition) (t : String) : Option Condition :=
  conds.find? fun c => c.condType == t

/-- Embeds `apimeta.IsStatusConditionFalse`: a condition of the given type is present
and its status is False. -/
def IsStatusConditionFalse (conds : List Condition) (t : String) : Bool :=
  match FindStatusCondition conds t with
  | some c => c.status == ConditionStatus.statusFalse
  | none => false

/-- Go map assignment `m[k] = v` on an association list: overwrite the entry
with key `k` when present, append otherwise. -/
def setKey (m : List (String × String)) (k v : String) : List (String × String) :=
  if m.any fun p => p.1 == k then m.map fun p => if p.1 == k then (k, v) else p
  else m ++ [(k, v)]

/-- The mutation step of `requestBucketReconciliation`: when the metadata map
is nil, create it holding only the trigger key; otherwise assign the trigger
key into the existing map. `ts` is `time.Now().Format(time.RFC3339Nano)`. -/
def stampTrigger (b : Bucket) (ts : String) : Bucket :=
  match b.annotations with
  | none => { b with annotations := some [(reconcileRequestKey, ts)] }
  | some m => { b with annotations := some (setKey m reconcileRequestKey ts) }

/-- Environment for the trigger-write phase: `updateErr n` is the error
injected into the `n`-th Update call (`none` = the write succeeds), and
`nowAt n` the timestamp produced by the `n`-th `time.Now()`. -/
structure ReqEnv where
  updateErr : Nat → Option StoreError
  nowAt : Nat → String

/-- Result of the trigger-write phase: the returned error (`none` = ok), the
store after the writes of this call, and how many Get and Update calls ran. -/
structure ReqResult where
  result : Option StoreError
  store : Option Bucket
  getCalls : Nat
  updateCalls : Nat
deriving DecidableEq, Repr

/-- Embeds `retry.RetryOnConflict` around the fetch-mutate-write body of
`requestBucketReconciliation`: each attempt fetches the resource (NotFound
when absent), stamps the trigger, and writes it back; a Conflict write error
retries the whole attempt, any other error returns immediately; when the
Steps budget is exhausted the last conflict error is returned. The store is
unchanged by a failed write. -/
def retryOnConflict (env : ReqEnv) : Nat → Nat → Option Bucket → ReqResult
  | 0, _, store => ⟨some StoreError.conflict, store, 0, 0⟩
  | steps + 1, n, store =>
    match store with
    | none => ⟨some StoreError.notFound, none, 1, 0⟩
    | some b =>
      let b2 := stampTrigger b (env.nowAt n)
      match env.updateErr n with
      | none => ⟨none, some b2, 1, 1⟩
      | some e =>
        if isConflict e then
          let r := retryOnConflict env steps (n + 1) store
          ⟨r.result, r.store, r.getCalls + 1, r.updateCalls + 1⟩
        else ⟨some e, store, 1, 1⟩

/-- Constant `retry.DefaultBackoff.Steps`. -/
def retryDefaultSteps : Nat := 4

/-- Embeds `requestBucketReconciliation`: the whole bounded retry loop. -/
def requestBucketReconciliation (env : ReqEnv) (store : Option Bucket) : ReqResult :=
  retryOnConflict env retryDefaultSteps 0 store

theorem retryOnConflict_zero (env : ReqEnv) (n : Nat) (store : Option Bucket) :
    retryOnConflict env 0 n store = ⟨some StoreError.conflict, store, 0, 0⟩ := rfl

theorem retryOnConflict_none (env : ReqEnv) (steps n : Nat) :
    retryOnConflict env (steps + 1) n none = ⟨some StoreError.notFound, none, 1, 0⟩ := rfl

theorem retryOnConflict_ok (env : ReqEnv) (steps n : Nat) (b : Bucket)
    (h : env.updateErr n = none) :
    retryOnConflict env (steps + 1) n (some b) =
      ⟨none, some (stampTrigger b (env.nowAt n)), 1, 1⟩ := by
  simp [retryOnConflict, h]

theorem retryOnConflict_conflict (env : ReqEnv) (steps n : Nat) (b : Bucket)
    (h : env.updateErr n = some StoreError.conflict) :
    retryOnConflict env (steps + 1) n (some b) =
      ⟨(retryOnConflict env steps (n + 1) (some b)).result,
       (retryOnConflict env steps (n + 1) (some b)).store,
       (retryOnConflict env steps (n + 1) (some b)).getCalls + 1,
       (retryOnConflict env steps (n + 1) (some b)).updateCalls + 1⟩ := by
  simp [retryOnConflict, h, isConflict]

theorem retryOnConflict_fatal (env : ReqEnv) (steps n : Nat) (b : Bucket) (e : StoreError)
    (h : env.updateErr n = some e) (hnc : isConflict e = false) :
    retryOnConflict env (steps + 1) n (some b) = ⟨some e, some b, 1, 1⟩ := by
  simp [retryOnConflict, h, hnc]

/-- The pure comparison inside `bucketReconciliationHandled`: the snapshot has
been handled when its `lastHandledReconcileAt` differs from the baseline
captured before the trigger write. -/
def bucketReconciliationHandledCheck (b : Bucket) (baseline : String) : Bool :=
  b.status.lastHandledReconcileAt != baseline

/-- Embeds `isBucketReady` (defined in the source file, never invoked by the
orchestrator): the wait.ConditionFunc body after a successful fetch. Returns
(satisfied, error message): stale observedGeneration is Pending; a Ready
condition that is True satisfies; False yields its message as an error;
Unknown or absent is Pending. -/
def isBucketReadyStep (b : Bucket) : Bool × Option String :=
  if b.generation != b.status.observedGeneration then (false, none)
  else
    match FindStatusCondition b.status.conditions readyCondition with
    | some c =>
      match c.status with
      | .statusTrue => (true, none)
      | .statusFalse => (false, some c.message)
      | .statusUnknown => (false, none)
    | none => (false, none)

/-- Outcome of the handled-wait poll. -/
inductive PollResult where
  | success (final : Bucket)
  | fetchError (e : StoreError)
  | timedOut
deriving DecidableEq, Repr

/-- Poll outcome together with the number of fetches performed. -/
structure PollRun where
  result : PollResult
  fetches : Nat
deriving DecidableEq, Repr

/-- Embeds `wait.PollImmediate` driven by `bucketReconciliationHandled`: the script
lists the Get results of the successive checks (first entry is the immediate
check); a fetch error aborts the wait at once; the poll succeeds at the first
snapshot whose `lastHandledReconcileAt` differs from the baseline; an
exhausted script is the deadline elapsing, `wait.ErrWaitTimeout`. -/
def pollHandled (baseline : String) : List (Except StoreError Bucket) → PollRun
  | [] => ⟨.timedOut, 0⟩
  | .error e :: _ => ⟨.fetchError e, 1⟩
  | .ok s :: rest =>
    if bucketReconciliationHandledCheck s baseline then ⟨.success s, 1⟩
    else
      let r := pollHandled baseline rest
      ⟨r.result, r.fetches + 1⟩

/-- Terminal outcome of one orchestrator invocation. `panicked` models the Go
nil-pointer dereference fault. -/
inductive Outcome where
  | succeeded (revision : String)
  | failed (msg : String)
  | storeError (e : StoreError)
  | timedOut
  | panicked
deriving DecidableEq, Repr

/-- Result of one invocation: outcome, the store as left by the writes of this
invocation, and the counts of Update and Get calls it issued. -/
structure RunResult where
  outcome : Outcome
  store : Option Bucket
  updateCalls : Nat
  getCalls : Nat
deriving DecidableEq, Repr

/-- Lines 97-101 of the source: with the in-memory bucket holding the last
snapshot fetched by the poll, fail with the fixed message when the Ready
condition is False; otherwise log `bucket.Status.Artifact.Revision` - a nil
artifact makes that dereference panic - and succeed. -/
def evaluateFinal (b : Bucket) : Outcome :=
  if IsStatusConditionFalse b.status.conditions readyCondition then
    Outcome.failed "Bucket source reconciliation failed"
  else
    match b.status.artifact with
    | none => Outcome.panicked
    | some a => Outcome.succeeded a.revision

/-- One invocation: the store at the start, the environment of the
trigger-write phase, and the scripted fetch results of the handled poll (the
external controller evolves the resource between fetches). -/
structure Invocation where
  store0 : Option Bucket
  reqEnv : ReqEnv
  polls : List (Except StoreError Bucket)

/-- Embeds `reconcileSourceBucketCmdRun`: initial Get (NotFound when absent); reject
when suspended; capture the baseline `lastHandledReconcileAt`; run
`requestBucketReconciliation`; run the handled-wait poll; then evaluate the
final snapshot directly - no further fetch and no second poll phase occurs
between the handled poll and the evaluation. -/
def reconcileSourceBucketCmdRun (inv : Invocation) : RunResult :=
  match inv.store0 with
  | none => ⟨Outcome.storeError StoreError.notFound, none, 0, 1⟩
  | some b =>
    if b.suspend then ⟨Outcome.failed "resource is suspended", some b, 0, 1⟩
    else
      let req := requestBucketReconciliation inv.reqEnv (some b)
      match req.result with
      | some e => ⟨Outcome.storeError e, req.store, req.updateCalls, 1 + req.getCalls⟩
      | none =>
        let p := pollHandled b.status.lastHandledReconcileAt inv.polls
        match p.result with
        | .fetchError e =>
            ⟨Outcome.storeError e, req.store, req.updateCalls, 1 + req.getCalls + p.fetches⟩
        | .timedOut =>
            ⟨Outcome.timedOut, req.store, req.updateCalls, 1 + req.getCalls + p.fetches⟩
        | .success s =>
            ⟨evaluateFinal s, req.store, req.updateCalls, 1 + req.getCalls + p.fetches⟩

theorem retryOnConflict_getCalls_le (env : ReqEnv) (steps : Nat) :
    ∀ (n : Nat) (store : Option Bucket),
      (retryOnConflict env steps n store).getCalls ≤ steps := by
  induction steps with
  | zero => intro n store; simp [retryOnConflict_zero]
  | succ steps ih =>
    intro n store
    cases store with
    | none => simp [retryOnConflict_none]
    | some b =>
      cases h : env.updateErr n with
      | none => simp [retryOnConflict_ok env steps n b h]
      | some e =>
        cases hc : isConflict e with
        | false => simp [retryOnConflict_fatal env steps n b e h hc]
        | true =>
          have he : e = StoreError.conflict := by
            cases e <;> first | rfl | simp [isConflict] at hc
          subst he
          rw [retryOnConflict_conflict env steps n b h]
          exact Nat.succ_le_succ (ih (n + 1) (some b))

theorem retryOnConflict_getCalls_pos (env : ReqEnv) (steps n : Nat) (b : Bucket) :
    1 ≤ (retryOnConflict env (steps + 1) n (some b)).getCalls := by
  cases h : env.updateErr n with
  | none => simp [retryOnConflict_ok env steps n b h]
  | some e =>
    cases hc : isConflict e with
    | false => simp [retryOnConflict_fatal env steps n b e h hc]
    | true =>
      have he : e = StoreError.conflict := by
        cases e <;> first | rfl | simp [isConflict] at hc
      subst he
      rw [retryOnConflict_conflict env steps n b h]
      exact Nat.le_add_left 1 _

theorem retryOnConflict_all_conflict (env : ReqEnv) (steps : Nat) :
    ∀ (n : Nat) (b : Bucket),
      (∀ k, k < steps → env.updateErr (n + k) = some StoreError.conflict) →
      retryOnConflict env steps n (some b) =
        ⟨some StoreError.conflict, some b, steps, steps⟩ := by
  induction steps with
  | zero => intro n b _; exact retryOnConflict_zero env n (some b)
  | succ steps ih =>
    intro n b h
    have h0 : env.updateErr n = some StoreError.conflict := by
      have := h 0 (Nat.succ_pos steps)
      simpa using this
    rw [retryOnConflict_conflict env steps n b h0]
    have hr : ∀ k, k < steps → env.updateErr (n + 1 + k) = some StoreError.conflict := by
      intro k hk
      have := h (k + 1) (Nat.succ_lt_succ hk)
      rwa [show n + (k + 1) = n + 1 + k by omega] at this
    rw [ih (n + 1) b hr]

/-- C4: when every write attempt up to the retry bound fails with a conflict,
`requestBucketReconciliation` returns the conflict error after exhausting the
Steps budget and the stored resource is exactly what it was before the call:
no trigger value was persisted. -/
theorem c4_conflict_exhaustion_store_unchanged (env : ReqEnv) (b : Bucket)
    (h : ∀ n, n < retryDefaultSteps → env.updateErr n = some StoreError.conflict) :
    requestBucketReconciliation env (some b) =
      ⟨some StoreError.conflict, some b, retryDefaultSteps, retryDefaultSteps⟩ := by
  have := retryOnConflict_all_conflict env retryDefaultSteps 0 b
    (by intro k hk; simpa using h k hk)
  simpa [requestBucketReconciliation] using this

def envAllConflict : ReqEnv :=
  ⟨fun _ => some StoreError.conflict, fun _ => "2024-01-01T00:00:00.000000001Z"⟩

def bSample : Bucket :=
  { generation := 1, annotations := none, suspend := false,
    status := { observedGeneration := 1, conditions := [],
                lastHandledReconcileAt := "", artifact := none } }

theorem c4_witness :
    (∀ n, n < retryDefaultSteps → envAllConflict.updateErr n = some StoreError.conflict) ∧
    requestBucketReconciliation envAllConflict (some bSample) =
      ⟨some StoreError.conflict, some bSample, retryDefaultSteps, retryDefaultSteps⟩ :=
  ⟨fun _ _ => rfl,
   c4_conflict_exhaustion_store_unchanged envAllConflict bSample (fun _ _ => rfl)⟩

/-- C5: fetch-or-write errors other than a conflict return immediately, with
no retry: a missing resource yields NotFound after one Get and zero Updates,
and a non-conflict write error returns after exactly one attempt with the
store unchanged; a conflict on the first write causes the sequence to be
retried (a second Get happens); attempts are bounded by the Steps budget. -/
theorem c5_only_conflict_retries (env : ReqEnv) (b : Bucket) (e : StoreError) :
    requestBucketReconciliation env none = ⟨some StoreError.notFound, none, 1, 0⟩ ∧
    (env.updateErr 0 = some e → isConflict e = false →
      requestBucketReconciliation env (some b) = ⟨some e, some b, 1, 1⟩) ∧
    (env.updateErr 0 = some StoreError.conflict →
      2 ≤ (requestBucketReconciliation env (some b)).getCalls) ∧
    (requestBucketReconciliation env (some b)).getCalls ≤ retryDefaultSteps := by
  refine ⟨rfl, ?_, ?_, ?_⟩
  · intro h hnc
    show retryOnConflict env (3 + 1) 0 (some b) = _
    exact retryOnConflict_fatal env 3 0 b e h hnc
  · intro h
    show 2 ≤ (retryOnConflict env (3 + 1) 0 (some b)).getCalls
    rw [retryOnConflict_conflict env 3 0 b h]
    exact Nat.succ_le_succ (retryOnConflict_getCalls_pos env 2 1 b)
  · exact retryOnConflict_getCalls_le env retryDefaultSteps 0 (some b)

def envFatal : ReqEnv :=
  ⟨fun _ => some (StoreError.otherErr "boom"), fun _ => "2024-01-01T00:00:00.000000001Z"⟩

theorem c5_witness :
    requestBucketReconciliation envFatal none = ⟨some StoreError.notFound, none, 1, 0⟩ ∧
    requestBucketReconciliation envFatal (some bSample) =
      ⟨some (StoreError.otherErr "boom"), some bSample, 1, 1⟩ ∧
    2 ≤ (requestBucketReconciliation envAllConflict (some bSample)).getCalls ∧
    (requestBucketReconciliation envAllConflict (some bSample)).getCalls ≤ retryDefaultSteps :=
  ⟨(c5_only_conflict_retries envFatal bSample (StoreError.otherErr "boom")).1,
   (c5_only_conflict_retries envFatal bSample (StoreError.otherErr "boom")).2.1 rfl rfl,
   (c5_only_conflict_retries envAllConflict bSample StoreError.conflict).2.2.1 rfl,
   (c5_only_conflict_retries envAllConflict bSample StoreError.conflict).2.2.2⟩

/-- C6: a snapshot whose observedGeneration differs from its generation is
Pending for the readiness check of `isBucketReady`: not satisfied and no
error, whatever conditions the snapshot carries, a Ready=True one included. -/
theorem c6_stale_generation_pending (b : Bucket)
    (h : b.status.observedGeneration ≠ b.generation) :
    isBucketReadyStep b = (false, none) := by
  have hb : (b.generation != b.status.observedGeneration) = true :=
    bne_iff_ne.mpr (Ne.symm h)
  simp [isBucketReadyStep, hb]

def bStale : Bucket :=
  { generation := 2, annotations := none, suspend := false,
    status := { observedGeneration := 1,
                conditions := [{ condType := "Ready",
                                 status := ConditionStatus.statusTrue, message := "" }],
                lastHandledReconcileAt := "", artifact := some { revision := "main/abc123" } } }

theorem c6_witness :
    bStale.status.observedGeneration ≠ bStale.generation ∧
    FindStatusCondition bStale.status.conditions readyCondition =
      some { condType := "Ready", status := ConditionStatus.statusTrue, message := "" } ∧
    isBucketReadyStep bStale = (false, none) :=
  ⟨by decide, by decide, c6_stale_generation_pending bStale (by decide)⟩

/-- C7: the handled check of `bucketReconciliationHandled` reports false
exactly when the fetched lastHandledReconcileAt equals the captured baseline,
and true for every other value. -/
theorem c7_handled_iff_changed (b : Bucket) (baseline : String) :
    (bucketReconciliationHandledCheck b baseline = false ↔
      b.status.lastHandledReconcileAt = baseline) := by
  simp [bucketReconciliationHandledCheck]

/-- C8: a resource that is suspended at the initial fetch makes the
invocation return the rejection error at once: zero Update calls are issued,
a single Get ran, and the store still holds the initial resource. -/
theorem c8_suspended_rejected (inv : Invocation) (b : Bucket)
    (h0 : inv.store0 = some b) (hs : b.suspend = true) :
    reconcileSourceBucketCmdRun inv =
      ⟨Outcome.failed "resource is suspended", some b, 0, 1⟩ := by
  simp [reconcileSourceBucketCmdRun, h0, hs]

def bSusp : Bucket := { bSample with suspend := true }

def invSusp : Invocation := ⟨some bSusp, envFatal, []⟩

theorem c8_witness :
    invSusp.store0 = some bSusp ∧ bSusp.suspend = true ∧
    reconcileSourceBucketCmdRun invSusp =
      ⟨Outcome.failed "resource is suspended", some bSusp, 0, 1⟩ :=
  ⟨rfl, rfl, c8_suspended_rejected invSusp bSusp rfl rfl⟩

/-- C9: on a resource whose metadata map is nil, a trigger request with a
successful first write returns ok and stores the resource with a freshly
created map holding exactly the trigger key. -/
theorem c9_nil_map_created (env : ReqEnv) (b : Bucket)
    (ha : b.annotations = none) (hu : env.updateErr 0 = none) :
    requestBucketReconciliation env (some b) =
      ⟨none, some { b with annotations := some [(reconcileRequestKey, env.nowAt 0)] },
       1, 1⟩ := by
  have h1 : stampTrigger b (env.nowAt 0) =
      { b with annotations := some [(reconcileRequestKey, env.nowAt 0)] } := by
    simp [stampTrigger, ha]
  calc requestBucketReconciliation env (some b)
      = retryOnConflict env (3 + 1) 0 (some b) := rfl
    _ = ⟨none, some (stampTrigger b (env.nowAt 0)), 1, 1⟩ :=
        retryOnConflict_ok env 3 0 b hu
    _ = ⟨none, some { b with annotations := some [(reconcileRequestKey, env.nowAt 0)] },
         1, 1⟩ := by rw [h1]

def envOk : ReqEnv := ⟨fun _ => none, fun _ => "2024-01-01T00:00:00.000000001Z"⟩

theorem c9_witness :
    bSample.annotations = none ∧ envOk.updateErr 0 = none ∧
    requestBucketReconciliation envOk (some bSample) =
      ⟨none, some { bSample with annotations := some [(reconcileRequestKey, envOk.nowAt 0)] },
       1, 1⟩ :=
  ⟨rfl, rfl, c9_nil_map_created envOk bSample rfl rfl⟩

/-- C10: when the request phase returned ok and the handled poll succeeds,
the invocation outcome is the evaluation of the snapshot returned by the
last fetch of the poll, and the total Get count is exactly the initial fetch
plus the request-phase fetches plus the poll fetches: no further fetch
happens between the poll and the final evaluation. -/
theorem c10_eval_uses_last_poll_snapshot (inv : Invocation) (b s : Bucket) (n : Nat)
    (h0 : inv.store0 = some b) (hs : b.suspend = false)
    (hreq : (requestBucketReconciliation inv.reqEnv (some b)).result = none)
    (hp : pollHandled b.status.lastHandledReconcileAt inv.polls =
      ⟨PollResult.success s, n⟩) :
    (reconcileSourceBucketCmdRun inv).outcome = evaluateFinal s ∧
    (reconcileSourceBucketCmdRun inv).getCalls =
      1 + (requestBucketReconciliation inv.reqEnv (some b)).getCalls + n := by
  simp [reconcileSourceBucketCmdRun, h0, hs, hreq, hp]

def bDone : Bucket :=
  { generation := 1, annotations := none, suspend := false,
    status := { observedGeneration := 1,
                conditions := [{ condType := "Ready",
                                 status := ConditionStatus.statusTrue, message := "ok" }],
                lastHandledReconcileAt := "2024-01-01T00:00:01Z",
                artifact := some { revision := "main/abc123" } } }

def invOk : Invocation := ⟨some bSample, envOk, [Except.ok bDone]⟩

theorem c10_witness :
    invOk.store0 = some bSample ∧ bSample.suspend = false ∧
    (requestBucketReconciliation invOk.reqEnv (some bSample)).result = none ∧
    pollHandled bSample.status.lastHandledReconcileAt invOk.polls =
      ⟨PollResult.success bDone, 1⟩ ∧
    (reconcileSourceBucketCmdRun invOk).outcome = evaluateFinal bDone ∧
    (reconcileSourceBucketCmdRun invOk).getCalls =
      1 + (requestBucketReconciliation invOk.reqEnv (some bSample)).getCalls + 1 :=
  ⟨rfl, rfl, by decide, by decide,
   (c10_eval_uses_last_poll_snapshot invOk bSample bDone 1 rfl rfl (by decide) (by decide)).1,
   (c10_eval_uses_last_poll_snapshot invOk bSample bDone 1 rfl rfl (by decide) (by decide)).2⟩

def bStart2 : Bucket :=
  { generation := 2, annotations := none, suspend := false,
    status := { observedGeneration := 1, conditions := [],
                lastHandledReconcileAt := "", artifact := none } }

def bAckOnly : Bucket :=
  { generation := 2, annotations := none, suspend := false,
    status := { observedGeneration := 1, conditions := [],
                lastHandledReconcileAt := "2024-01-01T00:00:01Z",
                artifact := some { revision := "main/abc123" } } }

def invC1 : Invocation := ⟨some bStart2, envOk, [Except.ok bAckOnly]⟩

/-- C1: evaluation of the orchestrator on a run whose final snapshot is still
Pending for `isBucketReadyStep` (observedGeneration lags generation, no Ready
condition at all): the invocation nevertheless terminates Succeeded with the
artifact revision, because the second poll phase the spec describes is never
run - `isBucketReady` is dead code in the source. -/
theorem c1_succeeded_without_ready_poll :
    (reconcileSourceBucketCmdRun invC1).outcome = Outcome.succeeded "main/abc123" ∧
    bAckOnly.status.observedGeneration ≠ bAckOnly.generation ∧
    FindStatusCondition bAckOnly.status.conditions readyCondition = none ∧
    isBucketReadyStep bAckOnly = (false, none) := by decide

def bFailMsg : Bucket :=
  { generation := 1, annotations := none, suspend := false,
    status := { observedGeneration := 1,
                conditions := [{ condType := "Ready",
                                 status := ConditionStatus.statusFalse,
                                 message := "fetch failed" }],
                lastHandledReconcileAt := "2024-01-01T00:00:01Z", artifact := none } }

def invC2 : Invocation := ⟨some bSample, envOk, [Except.ok bFailMsg]⟩

/-- C2: evaluation of the orchestrator on a run whose final snapshot carries
Ready=False with message "fetch failed": the invocation fails, but with the
fixed message "Bucket source reconciliation failed" - the condition message
is not surfaced (the surfacing code sits in the never-called
`isBucketReady`). -/
theorem c2_fixed_failure_message :
    (reconcileSourceBucketCmdRun invC2).outcome =
      Outcome.failed "Bucket source reconciliation failed" ∧
    FindStatusCondition bFailMsg.status.conditions readyCondition =
      some { condType := "Ready", status := ConditionStatus.statusFalse,
             message := "fetch failed" } ∧
    Outcome.failed "Bucket source reconciliation failed" ≠
      Outcome.failed "fetch failed" := by decide

def bNoArtifact : Bucket :=
  { generation := 1, annotations := none, suspend := false,
    status := { observedGeneration := 1,
                conditions := [{ condType := "Ready",
                                 status := ConditionStatus.statusUnknown,
                                 message := "progressing" }],
                lastHandledReconcileAt := "2024-01-01T00:00:01Z", artifact := none } }

def invC3 : Invocation := ⟨some bSample, envOk, [Except.ok bNoArtifact]⟩

/-- C3: evaluation of the orchestrator on a run that reaches the success path
(Ready is not False) with a nil artifact: the unguarded dereference of
`bucket.Status.Artifact.Revision` faults, modelled as the panicked outcome. -/
theorem c3_nil_artifact_success_path_panics :
    IsStatusConditionFalse bNoArtifact.status.conditions readyCondition = false ∧
    bNoArtifact.status.artifact = none ∧
    (reconcileSourceBucketCmdRun invC3).outcome = Outcome.panicked := by decide
